import Mathlib

/-!
Shallow embedding of the gitops-operator reconciliation pipeline
(kainlite/gitops-operator, Rust sources under src/).

Each definition mirrors one Rust function:
* `deployment_to_entry`  — src/src/configuration/configuration.rs
* `needs_patching`, `patch_deployment` — src/src/files/files.rs
* `process_deployment`, `reconcile` — src/src/configuration/configuration.rs
* `normalize_registry_url`, `check_image_url` — src/src/registry/registry.rs
* `get_latest_commit` — src/src/git/git.rs

External effects (kube API, YAML codec, git, HTTP, filesystem writes) are
passed in explicitly: the filesystem is a map from path to contents, the
YAML codec is a pair of functions, and git/secret/network call results are
fields of an environment record.
-/

/-- Substring occurrence on character lists: models Rust `str::contains`. -/
def occursIn (p : List Char) : List Char → Bool
  | [] => decide (p = [])
  | c :: t => p.isPrefixOf (c :: t) || occursIn p t

/-- Models Rust `String::contains(needle)` (substring containment). -/
def strContains (hay needle : String) : Bool :=
  occursIn needle.data hay.data

/-- Models Rust `char::is_whitespace` restricted to ASCII whitespace,
which is all that annotation values use. -/
def isWS (c : Char) : Bool :=
  c = ' ' || c = '\t' || c = '\n' || c = '\r'

/-- Models Rust `str::trim`. -/
def strTrim (s : String) : String :=
  ⟨((s.data.dropWhile isWS).reverse.dropWhile isWS).reverse⟩

/-- Models Rust `str::parse::<bool>()`: only the exact strings
`"true"` and `"false"` parse. -/
def parseBoolRust (s : String) : Option Bool :=
  if s = "true" then some true
  else if s = "false" then some false
  else none

/-- Models `img.splitn(2, ':')`: split at the first colon, if any. -/
def splitFirstColon (s : String) : String × Option String :=
  match s.data.span (fun c => c ≠ ':') with
  | (l, []) => (⟨l⟩, none)
  | (l, _ :: r) => (⟨l⟩, some ⟨r⟩)

/-! ### Cluster object model (the fields the operator reads) -/

/-- One container of a pod template: `k8s_openapi` `Container`,
restricted to the fields the operator touches. -/
structure KContainer where
  name : String
  image : Option String
deriving DecidableEq, Repr

/-- `PodSpec`: the container list. -/
structure KPodSpec where
  containers : List KContainer
deriving DecidableEq, Repr

/-- `PodTemplateSpec`: an optional `PodSpec`. -/
structure KPodTemplateSpec where
  spec : Option KPodSpec
deriving DecidableEq, Repr

/-- `DeploymentSpec`: the pod template. -/
structure KDeploymentSpec where
  template : KPodTemplateSpec
deriving DecidableEq, Repr

/-- `ObjectMeta`: name, namespace, annotations (the `BTreeMap` is an
association list looked up by key). -/
structure KMeta where
  name : Option String
  «namespace» : Option String
  annotations : Option (List (String × String))
deriving DecidableEq, Repr

/-- A cluster `Deployment`, restricted to the fields the operator reads. -/
structure KDeployment where
  metadata : KMeta
  spec : Option KDeploymentSpec
deriving DecidableEq, Repr

/-! ### Entry model (src/src/configuration/configuration.rs) -/

/-- `Config` struct from src/src/configuration/configuration.rs. -/
structure Config where
  enabled : Bool
  «namespace» : String
  app_repository : String
  manifest_repository : String
  image_name : String
  deployment_path : String
  observe_branch : String
  tag_type : String
  ssh_key_name : String
  ssh_key_namespace : String
  notifications : Bool
deriving DecidableEq, Repr

/-- `Entry` struct from src/src/configuration/configuration.rs. -/
structure Entry where
  container : String
  name : String
  «namespace» : String
  annotations : List (String × String)
  version : String
  config : Config
deriving DecidableEq, Repr

/-- The Rust `match tag_type.as_str() { "short" => "short", _ => "long" }`
normalization inside `deployment_to_entry`. -/
def normalizeTagType (s : String) : String :=
  if s = "short" then "short" else "long"

/-- `deployment_to_entry` from src/src/configuration/configuration.rs:
builds an `Entry` from a cluster `Deployment`, or `none` when the
namespace, annotation map, first container image, or any required
annotation is absent.  `enabled` and `notifications` are parsed with
`.trim().parse().unwrap_or(false)`. -/
def deployment_to_entry (d : KDeployment) : Option Entry := do
  let name := d.metadata.name.getD ""
  let ns ← d.metadata.«namespace»
  let anns ← d.metadata.annotations
  let spec ← d.spec
  let tpl ← spec.template.spec
  let c0 ← tpl.containers.get? 0
  let img ← c0.image
  let (container, versionOpt) := splitFirstColon img
  let version := versionOpt.getD "latest"
  let enabledRaw ← anns.lookup "gitops.operator.enabled"
  let enabled := (parseBoolRust (strTrim enabledRaw)).getD false
  let app_repository ← anns.lookup "gitops.operator.app_repository"
  let manifest_repository ← anns.lookup "gitops.operator.manifest_repository"
  let image_name ← anns.lookup "gitops.operator.image_name"
  let deployment_path ← anns.lookup "gitops.operator.deployment_path"
  let observe_branch := (anns.lookup "gitops.operator.observe_branch").getD "master"
  let tag_type := normalizeTagType ((anns.lookup "gitops.operator.tag_type").getD "long")
  let ssh_key_name ← anns.lookup "gitops.operator.ssh_key_name"
  let ssh_key_namespace ← anns.lookup "gitops.operator.ssh_key_namespace"
  let notificationsRaw ← anns.lookup "gitops.operator.notifications"
  let notifications := (parseBoolRust (strTrim notificationsRaw)).getD false
  some
    { name := name
      «namespace» := ns
      annotations := anns
      container := container
      version := version
      config :=
        { enabled := enabled
          «namespace» := ns
          app_repository := app_repository
          manifest_repository := manifest_repository
          image_name := image_name
          deployment_path := deployment_path
          observe_branch := observe_branch
          tag_type := tag_type
          ssh_key_name := ssh_key_name
          ssh_key_namespace := ssh_key_namespace
          notifications := notifications } }

/-! ### Manifest patcher (src/src/files/files.rs) -/

/-- A filesystem snapshot: path to file contents. -/
def FS : Type := String → Option String

/-- Point update of a filesystem snapshot (the effect of `fs::write`). -/
def updateFs (fs : FS) (path content : String) : FS :=
  fun p => if p = path then some content else fs p

/-- Error kinds of the file subsystem.  `panicked` models the Rust
`container.image.as_ref().unwrap()` panic on a container without an
image; `writeErr` an `fs::write` failure. -/
inductive FErr where
  | ioErr
  | parseErr
  | alreadyUpToDate
  | panicked
  | writeErr
deriving DecidableEq, Repr

/-- `get_deployment_from_file`: read the file, parse the YAML.  The YAML
codec (`serde_yaml`) is external, so the parse function is a parameter. -/
def get_deployment_from_file (fs : FS) (parse : String → Option KDeployment)
    (path : String) : Except FErr KDeployment :=
  match fs path with
  | none => .error .ioErr
  | some content =>
    match parse content with
    | none => .error .parseErr
    | some d => .ok d

/-- The containers walked by `needs_patching`/`patch_deployment`:
`.spec.template.spec.containers`, empty when either option is absent. -/
def containersOf (d : KDeployment) : List KContainer :=
  match d.spec with
  | none => []
  | some spec =>
    match spec.template.spec with
    | none => []
    | some tpl => tpl.containers

/-- The loop body of `needs_patching`: walk the containers in order;
`unwrap` of a missing image panics; a container whose image contains
`new_sha` stops the walk with `false`; otherwise `true`. -/
def needsPatchingWalk (new_sha : String) : List KContainer → Option Bool
  | [] => some true
  | c :: rest =>
    match c.image with
    | none => none
    | some img =>
      if strContains img new_sha then some false
      else needsPatchingWalk new_sha rest

/-- `needs_patching` from src/src/files/files.rs. -/
def needs_patching (fs : FS) (parse : String → Option KDeployment)
    (path new_sha : String) : Except FErr Bool :=
  match get_deployment_from_file fs parse path with
  | .error e => .error e
  | .ok d =>
    match needsPatchingWalk new_sha (containersOf d) with
    | none => .error .panicked
    | some b => .ok b

/-- Whether a container's image (when present) contains `sha` as a
substring: the per-container test of the `needs_patching` walk. -/
def imageHas (sha : String) (c : KContainer) : Bool :=
  match c.image with
  | some i => strContains i sha
  | none => false

/-- The loop body of `patch_deployment`: in order, a missing image
panics, an image containing `new_sha` aborts with `AlreadyUpToDate`, an
image containing `image_name` is replaced with `"{image_name}:{new_sha}"`,
anything else is kept. -/
def patchWalk (image_name new_sha : String) : List KContainer → Except FErr (List KContainer)
  | [] => .ok []
  | c :: rest =>
    match c.image with
    | none => .error .panicked
    | some img =>
      if strContains img new_sha then .error .alreadyUpToDate
      else
        let c2 := if strContains img image_name then
          { c with image := some (image_name ++ ":" ++ new_sha) } else c
        match patchWalk image_name new_sha rest with
        | .error e => .error e
        | .ok rest2 => .ok (c2 :: rest2)

/-- Replace the walked containers inside a deployment (identity when the
spec or template is absent, as in the Rust `if let` chain). -/
def setContainers (d : KDeployment) (cs : List KContainer) : KDeployment :=
  match d.spec with
  | none => d
  | some spec =>
    match spec.template.spec with
    | none => d
    | some _ => { d with spec := some { template := { spec := some { containers := cs } } } }

/-- `patch_deployment` from src/src/files/files.rs: parse, patch the
containers, serialize and overwrite the file.  The serialized text comes
from the external codec `ser`; `writeOk` is the outcome of `fs::write`.
On success the new filesystem snapshot is returned. -/
def patch_deployment (fs : FS) (parse : String → Option KDeployment)
    (ser : KDeployment → String) (writeOk : Bool)
    (path image_name new_sha : String) : Except FErr FS :=
  match get_deployment_from_file fs parse path with
  | .error e => .error e
  | .ok d =>
    match patchWalk image_name new_sha (containersOf d) with
    | .error e => .error e
    | .ok cs =>
      let updated := ser (setContainers d cs)
      if writeOk then .ok (updateFs fs path updated) else .error .writeErr

/-! ### Reconciliation orchestrator (src/src/configuration/configuration.rs) -/

/-- Outcomes of the external calls `process_deployment` makes, passed in
explicitly: the kube secret reads, the two clones, `get_latest_commit`,
the YAML codec, the `fs::write` outcome, `commit_changes` and
`send_notification`. -/
structure PEnv where
  endpointResult : Except String String
  sshKeyResult : Except String String
  cloneResult : Except String Unit
  latestShaResult : Except String String
  fs : FS
  parse : String → Option KDeployment
  ser : KDeployment → String
  writeOk : Bool
  commitResult : Except String Unit
  notifyResult : Except String Unit

/-- Observable outcome of one `process_deployment` run: the returned
`Result<(), &'static str>`, the SHA used (when computed), which steps
ran, the directories handed to `remove_dir_all`, the notification
messages sent, and the final filesystem snapshot. -/
structure PTrace where
  result : Except String Unit
  newSha : Option String
  patchAttempted : Bool
  patchResult : Option (Except FErr Unit)
  commitAttempted : Bool
  removedDirs : List String
  notificationsSent : List String
  finalFs : FS

/-- The notification endpoint: `get_notifications_endpoint(..).unwrap_or("")`. -/
def endpointOf (env : PEnv) : String :=
  match env.endpointResult with
  | .ok s => s
  | .error _ => ""

/-- `/tmp/app-{name}-{branch}` for an entry. -/
def appRepoPath (entry : Entry) : String :=
  "/tmp/app-" ++ entry.name ++ "-" ++ entry.config.observe_branch

/-- `/tmp/manifest-{name}-{branch}` for an entry. -/
def manifestRepoPath (entry : Entry) : String :=
  "/tmp/manifest-" ++ entry.name ++ "-" ++ entry.config.observe_branch

/-- `{manifest_repo_path}/{deployment_path}` for an entry. -/
def deploymentPathOf (entry : Entry) : String :=
  manifestRepoPath entry ++ "/" ++ entry.config.deployment_path

/-- The SHA `process_deployment` goes on with: the fetched commit id, or
the literal `"latest"` when `get_latest_commit` failed. -/
def shaOf (env : PEnv) : String :=
  match env.latestShaResult with
  | .ok sha => sha
  | .error _ => "latest"

/-- `process_deployment` from src/src/configuration/configuration.rs:
the per-entry pipeline.  SSH-key failure returns
`Err("Failed to get SSH key")`; a `get_latest_commit` failure is logged
and replaced by `"latest"`; `needs_patching(..).unwrap_or(false)` guards
the patch branch; inside it, a patch error only logs and (when the
`notifications` flag is false and an endpoint exists) notifies, then the
commit runs regardless; a commit error removes the manifest clone; an
up-to-date manifest returns `Err` with the up-to-date message. -/
def process_deployment (env : PEnv) (entry : Entry) : PTrace :=
  let endpoint := endpointOf env
  match env.sshKeyResult with
  | .error _ =>
    { result := .error "Failed to get SSH key"
      newSha := none
      patchAttempted := false
      patchResult := none
      commitAttempted := false
      removedDirs := []
      notificationsSent := []
      finalFs := env.fs }
  | .ok _ =>
    let new_sha := shaOf env
    let deployment_path := deploymentPathOf entry
    let np := needs_patching env.fs env.parse deployment_path new_sha
    let npB := match np with
      | .ok b => b
      | .error _ => false
    if npB then
      let pr := patch_deployment env.fs env.parse env.ser env.writeOk
        deployment_path entry.config.image_name new_sha
      let fs1 := match pr with
        | .ok fs2 => fs2
        | .error _ => env.fs
      let patchRes : Except FErr Unit := match pr with
        | .ok _ => .ok ()
        | .error e => .error e
      let failNotifs : List String := match pr with
        | .ok _ => []
        | .error _ =>
          if !entry.config.notifications && endpoint ≠ "" then
            ["Failed to patch deployment: " ++ entry.name ++ " to version: " ++ new_sha]
          else []
      let removed : List String := match env.commitResult with
        | .ok _ => []
        | .error _ => [manifestRepoPath entry]
      let successNotifs : List String :=
        if !entry.config.notifications && endpoint ≠ "" then
          ["Deployment " ++ entry.name ++ " has been patched successfully to version: " ++ new_sha]
        else []
      { result := .ok ()
        newSha := some new_sha
        patchAttempted := true
        patchResult := some patchRes
        commitAttempted := true
        removedDirs := removed
        notificationsSent := failNotifs ++ successNotifs
        finalFs := fs1 }
    else
      { result := .error "Deployment is up to date, proceeding to next deployment..."
        newSha := some new_sha
        patchAttempted := false
        patchResult := none
        commitAttempted := false
        removedDirs := []
        notificationsSent := []
        finalFs := env.fs }

/-! ### Reconciliation dispatcher (src/src/configuration/configuration.rs) -/

/-- `reconcile`: from the cache snapshot, `data` is every entry
`deployment_to_entry` yields; the loop runs `process_deployment` only
for entries with `config.enabled`; the HTTP response is `Json(data)`.
First component: the response body; second: the entries processed. -/
def reconcile (ds : List KDeployment) : List Entry × List Entry :=
  let data := ds.filterMap deployment_to_entry
  let processed := data.filter (fun e => e.config.enabled)
  (data, processed)

/-! ### Registry prober (src/src/registry/registry.rs) -/

/-- Models `str::ends_with`. -/
def strEndsWith (s suf : String) : Bool :=
  suf.data.isSuffixOf s.data

/-- Models `url.replace("/v1", "/v2")`: replace every non-overlapping
occurrence of `/v1`, scanning left to right. -/
def replaceV1WithV2 : List Char → List Char
  | '/' :: 'v' :: '1' :: rest => '/' :: 'v' :: '2' :: replaceV1WithV2 rest
  | c :: t => c :: replaceV1WithV2 t
  | [] => []

/-- Models `str::trim_end_matches('/')`. -/
def trimEndSlashes (l : List Char) : List Char :=
  (l.reverse.dropWhile (fun c => c = '/')).reverse

/-- The registry-URL normalization at the top of
`RegistryChecker::check_image`. -/
def normalize_registry_url (url : String) : String :=
  if strEndsWith url "/v1/" then ⟨replaceV1WithV2 url.data⟩
  else if strEndsWith url "/v2/" then url
  else String.mk (trimEndSlashes url.data) ++ "/v2"

/-- The URL probed by `check_image`:
`format!("{}/{}/manifests/{}", registry_url, image, tag)` after the
normalization. -/
def check_image_url (registry_url image tag : String) : String :=
  normalize_registry_url registry_url ++ "/" ++ image ++ "/manifests/" ++ tag

/-! ### Git engine (src/src/git/git.rs) -/

/-- The state `get_latest_commit` sees after its fetch: whether the repo
opened, whether `origin` resolved, whether the fetch succeeded, and the
commit id each reference peels to. -/
structure GitRepo where
  openOk : Bool
  remoteOk : Bool
  fetchOk : Bool
  refs : String → Option String

/-- `get_latest_commit` from src/src/git/git.rs: after opening and
fetching, look up `refs/remotes/origin/{branch}`; on a hit, `"short"`
returns the first 7 characters of the commit id, `"long"` the whole id,
and anything else the invalid-tag-type error (the `Err(..)?` in the
loop); on a miss, the branch-not-found error. -/
def get_latest_commit (repo : GitRepo) (branch tag_type : String) :
    Except String String :=
  if !repo.openOk then .error "failed to open repository"
  else if !repo.remoteOk then .error "failed to find remote origin"
  else if !repo.fetchOk then .error "failed to fetch"
  else
    match repo.refs ("refs/remotes/origin/" ++ branch) with
    | some commit_id =>
      if tag_type = "short" then .ok ⟨commit_id.data.take 7⟩
      else if tag_type = "long" then .ok commit_id
      else .error "Invalid tag_type. Must be 'short' or 'long'"
    | none =>
      .error ("Could not find " ++ branch ++ " branch in any expected location")

/-! ### Concrete fixtures -/

/-- A full annotation set, with chosen `enabled` and `notifications`
values. -/
def mkAnns (enabledVal notifVal : String) : List (String × String) :=
  [("gitops.operator.enabled", enabledVal),
   ("gitops.operator.app_repository", "git@github.com:kainlite/app.git"),
   ("gitops.operator.manifest_repository", "git@github.com:kainlite/manifests.git"),
   ("gitops.operator.image_name", "test-app"),
   ("gitops.operator.deployment_path", "deployments/app.yaml"),
   ("gitops.operator.ssh_key_name", "ssh-key"),
   ("gitops.operator.ssh_key_namespace", "default"),
   ("gitops.operator.notifications", notifVal)]

/-- A cluster Deployment named `test-app` in `default` with one
container image `test-app:v1` and the given annotations. -/
def mkDeployment (anns : List (String × String)) : KDeployment :=
  { metadata :=
      { name := some "test-app"
        «namespace» := some "default"
        annotations := some anns }
    spec := some
      { template :=
          { spec := some
              { containers := [{ name := "test-container", image := some "test-app:v1" }] } } } }

/-- The entry `deployment_to_entry` builds from `mkDeployment anns` when
the parsed `enabled`/`notifications` flags are both false. -/
def mkEntryDisabled (anns : List (String × String)) : Entry :=
  { name := "test-app"
    «namespace» := "default"
    annotations := anns
    container := "test-app"
    version := "v1"
    config :=
      { enabled := false
        «namespace» := "default"
        app_repository := "git@github.com:kainlite/app.git"
        manifest_repository := "git@github.com:kainlite/manifests.git"
        image_name := "test-app"
        deployment_path := "deployments/app.yaml"
        observe_branch := "master"
        tag_type := "long"
        ssh_key_name := "ssh-key"
        ssh_key_namespace := "default"
        notifications := false } }

/-- Deployment with every required annotation present but
`gitops.operator.enabled` set to the unparseable value `"invalid"`. -/
def dInvalidEnabled : KDeployment := mkDeployment (mkAnns "invalid" "false")

/-- Deployment with `gitops.operator.enabled` set to `"false"`. -/
def dDisabled : KDeployment := mkDeployment (mkAnns "false" "false")

/-- Parsed manifest whose container image already carries the new SHA. -/
def dManifestCurrent : KDeployment :=
  { metadata := { name := some "test-app", «namespace» := some "default", annotations := none }
    spec := some
      { template :=
          { spec := some { containers := [{ name := "app", image := some "test-app:cdea6a7" }] } } } }

/-- Parsed manifest whose container image carries an old SHA. -/
def dManifestOld : KDeployment :=
  { metadata := { name := some "test-app", «namespace» := some "default", annotations := none }
    spec := some
      { template :=
          { spec := some { containers := [{ name := "app", image := some "test-app:oldsha11" }] } } } }

/-- Parsed manifest with no pod spec at all (so no containers). -/
def dManifestEmpty : KDeployment :=
  { metadata := { name := some "empty", «namespace» := some "default", annotations := none }
    spec := none }

/-- A concrete YAML codec: three known documents parse, everything else
fails; serialization is a fixed renormalized document. -/
def parseFix : String → Option KDeployment := fun s =>
  if s = "manifest-current" then some dManifestCurrent
  else if s = "manifest-old" then some dManifestOld
  else if s = "manifest-empty" then some dManifestEmpty
  else none

/-- The serializer of the concrete codec. -/
def serFix : KDeployment → String := fun _ => "serialized-manifest"

/-- The manifest path `process_deployment` derives for the fixture
entry: `/tmp/manifest-test-app-master/deployments/app.yaml`. -/
def fixtureManifestPath : String :=
  "/tmp/manifest-test-app-master/deployments/app.yaml"

/-- Filesystem holding the up-to-date manifest at the fixture path. -/
def fsCurrent : FS := fun p =>
  if p = fixtureManifestPath then some "manifest-current" else none

/-- Filesystem holding the stale manifest at the fixture path. -/
def fsOld : FS := fun p =>
  if p = fixtureManifestPath then some "manifest-old" else none

/-- Filesystem holding the container-less manifest at `f.yaml`. -/
def fsEmpty : FS := fun p =>
  if p = "f.yaml" then some "manifest-empty" else none

/-- An enabled fixture entry for `test-app` watching `master`. -/
def entry0 : Entry :=
  { name := "test-app"
    «namespace» := "default"
    annotations := []
    container := "test-app"
    version := "v1"
    config :=
      { enabled := true
        «namespace» := "default"
        app_repository := "git@github.com:kainlite/app.git"
        manifest_repository := "git@github.com:kainlite/manifests.git"
        image_name := "test-app"
        deployment_path := "deployments/app.yaml"
        observe_branch := "master"
        tag_type := "long"
        ssh_key_name := "ssh-key"
        ssh_key_namespace := "default"
        notifications := false } }

/-- `entry0` with the `notifications` flag set. -/
def entryNotifOn : Entry :=
  { entry0 with config := { entry0.config with notifications := true } }

/-- Environment: manifest already at the new SHA, everything healthy. -/
def envUpToDate : PEnv :=
  { endpointResult := .error "no webhook secret"
    sshKeyResult := .ok "SSHKEY"
    cloneResult := .ok ()
    latestShaResult := .ok "cdea6a7"
    fs := fsCurrent
    parse := parseFix
    ser := serFix
    writeOk := true
    commitResult := .ok ()
    notifyResult := .ok () }

/-- Environment: `get_latest_commit` fails, stale manifest on disk. -/
def envShaErr : PEnv :=
  { endpointResult := .error "no webhook secret"
    sshKeyResult := .ok "SSHKEY"
    cloneResult := .ok ()
    latestShaResult := .error "fetch failed"
    fs := fsOld
    parse := parseFix
    ser := serFix
    writeOk := true
    commitResult := .ok ()
    notifyResult := .ok () }

/-- Environment: stale manifest, patch write fails, webhook configured,
commit succeeds. -/
def envPatchFail : PEnv :=
  { endpointResult := .ok "https://hooks.example/notify"
    sshKeyResult := .ok "SSHKEY"
    cloneResult := .ok ()
    latestShaResult := .ok "cdea6a7"
    fs := fsOld
    parse := parseFix
    ser := serFix
    writeOk := false
    commitResult := .ok ()
    notifyResult := .ok () }

/-- A git repo state with `refs/remotes/origin/master` at a fixed
40-character commit id. -/
def repoFix : GitRepo :=
  { openOk := true
    remoteOk := true
    fetchOk := true
    refs := fun r =>
      if r = "refs/remotes/origin/master" then
        some "cdea6a753ce3867ab4938088f538338d1e025d7d"
      else none }

/-! ### Helper lemmas -/

/-- Beta rule for `Option` monadic bind on a `some`. -/
theorem bindSomeEq {α β : Type} (a : α) (f : α → Option β) : (some a >>= f) = f a := rfl

/-- The tag-type normalization only ever yields `"short"` or `"long"`. -/
theorem normalizeTagType_cases (s : String) :
    normalizeTagType s = "short" ∨ normalizeTagType s = "long" := by
  unfold normalizeTagType
  split
  · exact Or.inl rfl
  · exact Or.inr rfl

/-- When every container has an image, the `needs_patching` walk never
panics and computes the negation of "some container image contains the
SHA". -/
theorem needsPatchingWalk_some (sha : String) (cs : List KContainer)
    (h : ∀ c ∈ cs, c.image ≠ none) :
    needsPatchingWalk sha cs = some (!cs.any (imageHas sha)) := by
  induction cs with
  | nil => rfl
  | cons c rest ih =>
    obtain ⟨i, hi⟩ : ∃ i, c.image = some i := by
      cases hc : c.image with
      | none => exact absurd hc (h c (List.mem_cons_self c rest))
      | some i => exact ⟨i, rfl⟩
    have hrest : ∀ x ∈ rest, x.image ≠ none := fun x hx => h x (List.mem_cons_of_mem c hx)
    simp only [needsPatchingWalk, hi, List.any_cons, imageHas]
    by_cases hc : strContains i sha
    · simp [hc]
    · simp only [hc, if_neg, Bool.false_or, ih hrest]
      simp [hc]

/-- Replacing `/v1` by `/v2` left to right preserves a trailing `/v1/`,
turning it into a trailing `/v2/`. -/
theorem replaceV1_suffix_aux (n : Nat) : ∀ l : List Char, l.length ≤ n →
    ['/', 'v', '1', '/'] <:+ l → ['/', 'v', '2', '/'] <:+ replaceV1WithV2 l := by
  induction n with
  | zero =>
    intro l hlen hsuf
    have := hsuf.length_le
    simp at this
    omega
  | succ n ih =>
    intro l hlen hsuf
    obtain ⟨t, rfl⟩ := hsuf
    rw [replaceV1WithV2.eq_def]
    split
    · next rest heq =>
      cases t with
      | nil =>
        obtain rfl : rest = ['/'] := by
          have := congrArg (List.drop 3) heq
          simpa using this.symm
        exact List.suffix_rfl
      | cons a t2 =>
        cases t2 with
        | nil => simp at heq
        | cons b t3 =>
          cases t3 with
          | nil => simp at heq
          | cons c3 t4 =>
            have hr : t4 ++ ['/', 'v', '1', '/'] = rest := by
              have := congrArg (List.drop 3) heq
              simpa using this
            subst hr
            have hlen2 : (t4 ++ ['/', 'v', '1', '/']).length ≤ n := by
              simp only [List.length_append, List.length_cons] at hlen ⊢
              omega
            have h := ih _ hlen2 (List.suffix_append _ _)
            exact ((h.trans (List.suffix_cons '2' _)).trans
              (List.suffix_cons 'v' _)).trans (List.suffix_cons '/' _)
    · next c tl hne heq =>
      cases t with
      | nil =>
        simp only [List.nil_append, List.cons.injEq] at heq
        exact (hne ['/'] heq.1.symm heq.2.symm).elim
      | cons a t2 =>
        simp only [List.cons_append, List.cons.injEq] at heq
        obtain ⟨rfl, rfl⟩ := heq
        have hlen2 : (t2 ++ ['/', 'v', '1', '/']).length ≤ n := by
          simp only [List.length_append, List.length_cons] at hlen ⊢
          omega
        have h := ih _ hlen2 (List.suffix_append _ _)
        exact h.trans (List.suffix_cons _ _)
    · next heq => simp at heq

/-! ### Claim C1 -/

/-- C1 counterexample: with the manifest already at the new SHA
(`needs_patching` returns `Ok(false)`), `process_deployment` returns the
`Err` variant of its `Result` — a failure value — carrying the
up-to-date message, not a success value. -/
theorem upToDate_err_cex :
    needs_patching envUpToDate.fs envUpToDate.parse (deploymentPathOf entry0)
      (shaOf envUpToDate) = .ok false
    ∧ (process_deployment envUpToDate entry0).result =
      .error "Deployment is up to date, proceeding to next deployment..." :=
  ⟨rfl, rfl⟩

/-- C1 amended: when the SSH key resolves and `needs_patching` returns
`Ok(false)`, `process_deployment` terminates with
`Err("Deployment is up to date, proceeding to next deployment...")` —
the `Err` variant, not a success value — and performs no patch, no
commit, no filesystem write and no notification. -/
theorem upToDate_returns_err (env : PEnv) (entry : Entry) (k : String)
    (hssh : env.sshKeyResult = .ok k)
    (hnp : needs_patching env.fs env.parse (deploymentPathOf entry) (shaOf env) = .ok false) :
    (process_deployment env entry).result =
      .error "Deployment is up to date, proceeding to next deployment..."
    ∧ (process_deployment env entry).patchAttempted = false
    ∧ (process_deployment env entry).commitAttempted = false
    ∧ (process_deployment env entry).finalFs = env.fs
    ∧ (process_deployment env entry).notificationsSent = [] := by
  simp only [process_deployment, hssh, hnp]
  exact ⟨rfl, rfl, rfl, rfl, rfl⟩

/-- C1 witness: the amended theorem applied to the concrete up-to-date
environment. -/
theorem upToDate_returns_err_witness :
    (process_deployment envUpToDate entry0).result =
      .error "Deployment is up to date, proceeding to next deployment..."
    ∧ (process_deployment envUpToDate entry0).patchAttempted = false
    ∧ (process_deployment envUpToDate entry0).commitAttempted = false
    ∧ (process_deployment envUpToDate entry0).finalFs = envUpToDate.fs
    ∧ (process_deployment envUpToDate entry0).notificationsSent = [] :=
  upToDate_returns_err envUpToDate entry0 "SSHKEY" rfl rfl

/-! ### Claim C2 -/

/-- C2 counterexample: with `get_latest_commit` failing,
`process_deployment` does not return a terminal failure — it proceeds to
the patch and commit steps and returns `Ok(())`. -/
theorem sha_error_proceeds_cex :
    envShaErr.latestShaResult = .error "fetch failed"
    ∧ (process_deployment envShaErr entry0).result = .ok ()
    ∧ (process_deployment envShaErr entry0).patchAttempted = true
    ∧ (process_deployment envShaErr entry0).commitAttempted = true :=
  ⟨rfl, rfl, rfl, rfl⟩

/-- C2 amended: when `get_latest_commit` returns an error,
`process_deployment` logs it, substitutes the literal `"latest"` for the
new SHA, and continues: the whole run is identical to a run in which
`get_latest_commit` had returned `"latest"`. -/
theorem sha_error_falls_back_latest (env : PEnv) (entry : Entry) (msg : String)
    (h : env.latestShaResult = .error msg) :
    process_deployment env entry =
      process_deployment { env with latestShaResult := .ok "latest" } entry := by
  obtain ⟨er, skr, cr, lsr, fs, parse, ser, wok, comr, nr⟩ := env
  cases h
  rfl

/-- C2 witness: the amended theorem applied to the concrete environment
whose SHA fetch fails. -/
theorem sha_error_falls_back_latest_witness :
    process_deployment envShaErr entry0 =
      process_deployment { envShaErr with latestShaResult := .ok "latest" } entry0 :=
  sha_error_falls_back_latest envShaErr entry0 "fetch failed" rfl

/-! ### Claim C3 -/

/-- C3 counterexample: a Deployment with namespace, annotations, a first
container image and every other required annotation present, whose
`gitops.operator.enabled` value `"invalid"` is not parseable as a
boolean, DOES yield an Entry (with `enabled = false`). -/
theorem invalid_enabled_entry_cex :
    deployment_to_entry dInvalidEnabled = some (mkEntryDisabled (mkAnns "invalid" "false")) :=
  rfl

/-- C3 amended: for every cluster Deployment with namespace,
annotations, a first container image and all other required annotations
present, an `enabled` value that does not parse as a boolean yields an
Entry whose `config.enabled` is `false` (the `unwrap_or(false)`
fallback) — the Deployment is not rejected. -/
theorem invalid_enabled_gives_disabled_entry
    (d : KDeployment) (ns : String) (anns : List (String × String))
    (spec : KDeploymentSpec) (tpl : KPodSpec) (c0 : KContainer) (img : String)
    (enabledRaw ar mr inm dp skn sknn nr : String)
    (hns : d.metadata.«namespace» = some ns)
    (hanns : d.metadata.annotations = some anns)
    (hspec : d.spec = some spec)
    (htpl : spec.template.spec = some tpl)
    (hc0 : tpl.containers.get? 0 = some c0)
    (himg : c0.image = some img)
    (hl1 : anns.lookup "gitops.operator.enabled" = some enabledRaw)
    (hpb : parseBoolRust (strTrim enabledRaw) = none)
    (hl2 : anns.lookup "gitops.operator.app_repository" = some ar)
    (hl3 : anns.lookup "gitops.operator.manifest_repository" = some mr)
    (hl4 : anns.lookup "gitops.operator.image_name" = some inm)
    (hl5 : anns.lookup "gitops.operator.deployment_path" = some dp)
    (hl6 : anns.lookup "gitops.operator.ssh_key_name" = some skn)
    (hl7 : anns.lookup "gitops.operator.ssh_key_namespace" = some sknn)
    (hl8 : anns.lookup "gitops.operator.notifications" = some nr) :
    ∃ e, deployment_to_entry d = some e ∧ e.config.enabled = false := by
  unfold deployment_to_entry
  simp only [hns, hanns, hspec, htpl, hc0, himg, hl1, hl2, hl3, hl4, hl5, hl6, hl7, hl8,
    bindSomeEq, hpb, Option.getD_none]
  exact ⟨_, rfl, rfl⟩

/-- C3 witness: the amended theorem applied to the concrete Deployment
whose `enabled` annotation is `"invalid"`. -/
theorem invalid_enabled_gives_disabled_entry_witness :
    ∃ e, deployment_to_entry dInvalidEnabled = some e ∧ e.config.enabled = false :=
  invalid_enabled_gives_disabled_entry dInvalidEnabled "default"
    (mkAnns "invalid" "false") _ _ _ "test-app:v1"
    "invalid" "git@github.com:kainlite/app.git" "git@github.com:kainlite/manifests.git"
    "test-app" "deployments/app.yaml" "ssh-key" "default" "false"
    rfl rfl rfl rfl rfl rfl rfl rfl rfl rfl rfl rfl rfl rfl rfl

/-! ### Claim C4 -/

/-- C4 counterexample: a snapshot whose single Deployment is disabled
(`enabled = "false"`) makes `/reconcile` return a ONE-element array
containing that disabled entry — not the empty array. -/
theorem disabled_entries_in_response_cex :
    (reconcile [dDisabled]).1 = [mkEntryDisabled (mkAnns "false" "false")]
    ∧ (reconcile [dDisabled]).1.map (fun e => e.config.enabled) = [false] :=
  ⟨rfl, rfl⟩

/-- C4 amended: the `/reconcile` response lists every Entry built from
the snapshot, disabled ones included; entries with `enabled == false`
are excluded only from processing, so an all-disabled snapshot processes
nothing while its response still lists every entry. -/
theorem reconcile_includes_disabled (ds : List KDeployment) :
    ((∀ e ∈ (reconcile ds).1, e.config.enabled = false) → (reconcile ds).2 = [])
    ∧ ∀ d ∈ ds, ∀ e, deployment_to_entry d = some e → e ∈ (reconcile ds).1 := by
  constructor
  · intro h
    simp only [reconcile, List.filter_eq_nil_iff]
    intro a ha
    have := h a ha
    simp only [reconcile] at this
    simp [this]
  · intro d hd e he
    simp only [reconcile]
    exact List.mem_filterMap.mpr ⟨d, hd, he⟩

/-- C4 witness: the amended theorem applied to the all-disabled
snapshot `[dDisabled]`. -/
theorem reconcile_includes_disabled_witness :
    (reconcile [dDisabled]).2 = []
    ∧ mkEntryDisabled (mkAnns "false" "false") ∈ (reconcile [dDisabled]).1 :=
  ⟨(reconcile_includes_disabled [dDisabled]).1 (by decide),
   (reconcile_includes_disabled [dDisabled]).2 dDisabled (by simp)
     (mkEntryDisabled (mkAnns "false" "false")) rfl⟩

/-! ### Claim C5 -/

/-- C5: for a file that reads and parses as a Deployment in which every
container carries an image, `needs_patching` returns `Ok(false)` exactly
when some container's image contains the SHA as a substring, and
`Ok(true)` exactly otherwise. -/
theorem needs_patching_iff (fs : FS) (parse : String → Option KDeployment)
    (path sha content : String) (d : KDeployment)
    (hread : fs path = some content) (hparse : parse content = some d)
    (himg : ∀ c ∈ containersOf d, c.image ≠ none) :
    (needs_patching fs parse path sha = .ok false ↔
       ∃ c ∈ containersOf d, ∃ i, c.image = some i ∧ strContains i sha = true)
    ∧ (needs_patching fs parse path sha = .ok true ↔
       ¬ ∃ c ∈ containersOf d, ∃ i, c.image = some i ∧ strContains i sha = true) := by
  have hwalk := needsPatchingWalk_some sha (containersOf d) himg
  have heq : needs_patching fs parse path sha = .ok (!(containersOf d).any (imageHas sha)) := by
    unfold needs_patching get_deployment_from_file
    simp only [hread, hparse, hwalk]
  have hany : (containersOf d).any (imageHas sha) = true ↔
      ∃ c ∈ containersOf d, ∃ i, c.image = some i ∧ strContains i sha = true := by
    rw [List.any_eq_true]
    constructor
    · rintro ⟨c, hc, hhas⟩
      refine ⟨c, hc, ?_⟩
      unfold imageHas at hhas
      cases hi : c.image with
      | none => rw [hi] at hhas; exact absurd hhas (by simp)
      | some i => rw [hi] at hhas; exact ⟨i, rfl, hhas⟩
    · rintro ⟨c, hc, i, hi, hhas⟩
      exact ⟨c, hc, by unfold imageHas; rw [hi]; exact hhas⟩
  rw [heq, ← hany]
  cases hx : (containersOf d).any (imageHas sha) <;> simp [hx]

/-- C5 witness: the theorem applied to the concrete filesystem holding
the up-to-date manifest. -/
theorem needs_patching_iff_witness :
    (needs_patching fsCurrent parseFix fixtureManifestPath "cdea6a7" = .ok false ↔
       ∃ c ∈ containersOf dManifestCurrent, ∃ i, c.image = some i
         ∧ strContains i "cdea6a7" = true)
    ∧ (needs_patching fsCurrent parseFix fixtureManifestPath "cdea6a7" = .ok true ↔
       ¬ ∃ c ∈ containersOf dManifestCurrent, ∃ i, c.image = some i
         ∧ strContains i "cdea6a7" = true) :=
  needs_patching_iff fsCurrent parseFix fixtureManifestPath "cdea6a7" "manifest-current"
    dManifestCurrent rfl rfl (by decide)

/-! ### Claim C6 -/

/-- C6 counterexample: a file that parses as a Deployment with no
containers at all — so vacuously every container's image contains the
SHA — is NOT left untouched: `patch_deployment` returns `Ok` and
rewrites the file with the re-serialized document. -/
theorem patch_vacuous_write_cex :
    patch_deployment fsEmpty parseFix serFix true "f.yaml" "test-app" "cdea6a7" =
      .ok (updateFs fsEmpty "f.yaml" "serialized-manifest")
    ∧ updateFs fsEmpty "f.yaml" "serialized-manifest" "f.yaml" ≠ fsEmpty "f.yaml" :=
  ⟨rfl, by decide⟩

/-- C6 amended: for every file that parses as a Deployment with at
least one walked container, in which every container's image already
contains the SHA, `patch_deployment` aborts with the already-up-to-date
error before serializing, so no write occurs and the file bytes are
untouched (in the model, only an `Ok` result carries a new filesystem). -/
theorem patch_already_up_to_date_noop (fs : FS) (parse : String → Option KDeployment)
    (ser : KDeployment → String) (writeOk : Bool)
    (path image_name sha content : String) (d : KDeployment)
    (hread : fs path = some content) (hparse : parse content = some d)
    (hne : containersOf d ≠ [])
    (hall : ∀ c ∈ containersOf d, ∃ i, c.image = some i ∧ strContains i sha = true) :
    patch_deployment fs parse ser writeOk path image_name sha = .error .alreadyUpToDate := by
  obtain ⟨c, cs, hcs⟩ : ∃ c cs, containersOf d = c :: cs := by
    cases hcs : containersOf d with
    | nil => exact absurd hcs hne
    | cons a l => exact ⟨a, l, rfl⟩
  obtain ⟨i, hi, hcont⟩ := hall c (by rw [hcs]; exact List.mem_cons_self c cs)
  unfold patch_deployment get_deployment_from_file
  simp only [hread, hparse, hcs, patchWalk, hi, hcont, if_pos]

/-- C6 witness: the amended theorem applied to the concrete up-to-date
manifest. -/
theorem patch_already_up_to_date_noop_witness :
    patch_deployment fsCurrent parseFix serFix true fixtureManifestPath "test-app" "cdea6a7" =
      .error .alreadyUpToDate :=
  patch_already_up_to_date_noop fsCurrent parseFix serFix true fixtureManifestPath
    "test-app" "cdea6a7" "manifest-current" dManifestCurrent rfl rfl (by decide)
    (by
      intro c hc
      simp only [containersOf, dManifestCurrent, List.mem_singleton] at hc
      subst hc
      exact ⟨"test-app:cdea6a7", rfl, by decide⟩)

/-! ### Claim C7 -/

/-- C7 counterexample: `patch_deployment` fails (write error) with a
webhook endpoint configured, yet the orchestrator removes nothing from
disk and sends no failure notification (the entry's `notifications`
flag is true, and the code only notifies when that flag is false); it
does fall through to the commit step. -/
theorem patch_error_no_cleanup_cex :
    (process_deployment envPatchFail entryNotifOn).patchResult = some (.error .writeErr)
    ∧ endpointOf envPatchFail ≠ ""
    ∧ (process_deployment envPatchFail entryNotifOn).removedDirs = []
    ∧ (process_deployment envPatchFail entryNotifOn).notificationsSent = []
    ∧ (process_deployment envPatchFail entryNotifOn).commitAttempted = true :=
  ⟨rfl, by decide, rfl, rfl, rfl⟩

/-- C7 amended: when `patch_deployment` errors inside the orchestrator,
the error is logged and execution falls through to the commit step (the
run still returns `Ok`); `manifest_repo_path` is removed from disk only
when the subsequent commit fails, not on the patch error itself; and the
patch-failure notification is sent exactly when the entry's
`notifications` flag is false AND an endpoint is configured. -/
theorem patch_error_falls_through (env : PEnv) (entry : Entry) (k : String) (e : FErr)
    (hssh : env.sshKeyResult = .ok k)
    (hnp : needs_patching env.fs env.parse (deploymentPathOf entry) (shaOf env) = .ok true)
    (hpr : patch_deployment env.fs env.parse env.ser env.writeOk (deploymentPathOf entry)
        entry.config.image_name (shaOf env) = .error e) :
    (process_deployment env entry).commitAttempted = true
    ∧ (process_deployment env entry).result = .ok ()
    ∧ (process_deployment env entry).finalFs = env.fs
    ∧ (process_deployment env entry).removedDirs =
        (match env.commitResult with
         | .ok _ => []
         | .error _ => [manifestRepoPath entry])
    ∧ (("Failed to patch deployment: " ++ entry.name ++ " to version: " ++ shaOf env)
          ∈ (process_deployment env entry).notificationsSent
        ↔ (entry.config.notifications = false ∧ endpointOf env ≠ "")) := by
  simp only [process_deployment, hssh, hnp, hpr]
  refine ⟨rfl, rfl, rfl, rfl, ?_⟩
  by_cases hn : entry.config.notifications
  · simp [hn]
  · by_cases hep : endpointOf env = ""
    · simp [hn, hep]
    · simp [hn, hep]

/-- C7 witness: the amended theorem applied to the concrete failing
patch run. -/
theorem patch_error_falls_through_witness :
    (process_deployment envPatchFail entryNotifOn).commitAttempted = true
    ∧ (process_deployment envPatchFail entryNotifOn).result = .ok () :=
  ⟨(patch_error_falls_through envPatchFail entryNotifOn "SSHKEY" .writeErr rfl rfl rfl).1,
   (patch_error_falls_through envPatchFail entryNotifOn "SSHKEY" .writeErr rfl rfl rfl).2.1⟩

/-! ### Claim C8 -/

/-- C8 counterexample: the default registry URL ends in `/v1/`; the code
replaces `/v1` with `/v2` and KEEPS the trailing slash, so the
normalized URL ends in `/v2/`, not in `/v2` as the claim states (the
probe URL then contains a double slash). -/
theorem normalize_v1_cex :
    normalize_registry_url "https://index.docker.io/v1/" = "https://index.docker.io/v2/"
    ∧ strEndsWith "https://index.docker.io/v2/" "/v2" = false :=
  ⟨rfl, rfl⟩

/-- C8 amended: a registry URL ending in `/v1/` has every `/v1`
occurrence replaced by `/v2`, so the result ends in `/v2/` (slash kept);
a URL ending in `/v2/` is kept unchanged (still ending in `/v2/`); any
other URL has its trailing slashes trimmed and `/v2` appended; the
probed URL is exactly `{normalized registry}/{image}/manifests/{tag}`. -/
theorem normalize_registry_url_cases (url image tag : String) :
    (strEndsWith url "/v1/" = true →
      strEndsWith (normalize_registry_url url) "/v2/" = true)
    ∧ (strEndsWith url "/v1/" = false → strEndsWith url "/v2/" = true →
      normalize_registry_url url = url)
    ∧ (strEndsWith url "/v1/" = false → strEndsWith url "/v2/" = false →
      normalize_registry_url url = String.mk (trimEndSlashes url.data) ++ "/v2")
    ∧ check_image_url url image tag =
        normalize_registry_url url ++ "/" ++ image ++ "/manifests/" ++ tag := by
  refine ⟨?_, ?_, ?_, rfl⟩
  · intro h1
    unfold normalize_registry_url
    rw [if_pos h1]
    unfold strEndsWith at h1 ⊢
    rw [List.isSuffixOf_iff_suffix] at h1 ⊢
    have hd1 : "/v1/".data = ['/', 'v', '1', '/'] := rfl
    have hd2 : "/v2/".data = ['/', 'v', '2', '/'] := rfl
    rw [hd1] at h1
    rw [hd2]
    exact replaceV1_suffix_aux url.data.length url.data Nat.le.refl h1
  · intro h1 h2
    unfold normalize_registry_url
    rw [if_neg (by simp [h1]), if_pos h2]
  · intro h1 h2
    unfold normalize_registry_url
    rw [if_neg (by simp [h1]), if_neg (by simp [h2])]

/-- C8 witness: the amended theorem applied to the default Docker Hub
registry URL. -/
theorem normalize_registry_url_cases_witness :
    strEndsWith (normalize_registry_url "https://index.docker.io/v1/") "/v2/" = true
    ∧ check_image_url "https://index.docker.io/v1/" "test-app" "cdea6a7" =
        normalize_registry_url "https://index.docker.io/v1/" ++ "/" ++ "test-app"
          ++ "/manifests/" ++ "cdea6a7" :=
  ⟨(normalize_registry_url_cases "https://index.docker.io/v1/" "test-app" "cdea6a7").1 rfl,
   (normalize_registry_url_cases "https://index.docker.io/v1/" "test-app" "cdea6a7").2.2.2⟩

/-! ### Claim C9 -/

/-- C9: when the repository opens, `origin` resolves, the fetch succeeds
and `refs/remotes/origin/{branch}` is found at a 40-character commit id,
tag type `"short"` returns exactly its first 7 characters, `"long"`
returns the whole id, and any other tag type yields the
invalid-tag-type error rather than a commit id. -/
theorem get_latest_commit_tag_type (repo : GitRepo) (branch cid : String)
    (hopen : repo.openOk = true) (hrem : repo.remoteOk = true) (hfetch : repo.fetchOk = true)
    (href : repo.refs ("refs/remotes/origin/" ++ branch) = some cid)
    (hlen : cid.data.length = 40) :
    get_latest_commit repo branch "short" = .ok ⟨cid.data.take 7⟩
    ∧ (String.mk (cid.data.take 7)).length = 7
    ∧ get_latest_commit repo branch "long" = .ok cid
    ∧ ∀ t, t ≠ "short" → t ≠ "long" →
        get_latest_commit repo branch t = .error "Invalid tag_type. Must be 'short' or 'long'" := by
  unfold get_latest_commit
  simp only [hopen, hrem, hfetch, href, Bool.not_true, Bool.false_eq_true, if_false]
  refine ⟨by simp, ?_, by simp, ?_⟩
  · show (cid.data.take 7).length = 7
    rw [List.length_take, hlen]
    rfl
  · intro t h1 h2
    simp [h1, h2]

/-- C9 witness: the theorem applied to the concrete repo state, for the
three tag types. -/
theorem get_latest_commit_tag_type_witness :
    get_latest_commit repoFix "master" "short" = .ok "cdea6a7"
    ∧ get_latest_commit repoFix "master" "long" =
        .ok "cdea6a753ce3867ab4938088f538338d1e025d7d"
    ∧ get_latest_commit repoFix "master" "banana" =
        .error "Invalid tag_type. Must be 'short' or 'long'" :=
  ⟨(get_latest_commit_tag_type repoFix "master" "cdea6a753ce3867ab4938088f538338d1e025d7d"
      rfl rfl rfl rfl rfl).1,
   (get_latest_commit_tag_type repoFix "master" "cdea6a753ce3867ab4938088f538338d1e025d7d"
      rfl rfl rfl rfl rfl).2.2.1,
   (get_latest_commit_tag_type repoFix "master" "cdea6a753ce3867ab4938088f538338d1e025d7d"
      rfl rfl rfl rfl rfl).2.2.2 "banana" (by decide) (by decide)⟩

/-! ### Claim C10 -/

/-- C10: every Entry `deployment_to_entry` produces has
`config.tag_type` equal to `"short"` or `"long"` — any other annotation
value (or its absence) is normalized to `"long"` at parse time. -/
theorem tag_type_normalized (d : KDeployment) (e : Entry)
    (h : deployment_to_entry d = some e) :
    e.config.tag_type = "short" ∨ e.config.tag_type = "long" := by
  unfold deployment_to_entry at h
  obtain ⟨ns, -, h⟩ := Option.bind_eq_some.mp h
  obtain ⟨anns, -, h⟩ := Option.bind_eq_some.mp h
  obtain ⟨spec, -, h⟩ := Option.bind_eq_some.mp h
  obtain ⟨tpl, -, h⟩ := Option.bind_eq_some.mp h
  obtain ⟨c0, -, h⟩ := Option.bind_eq_some.mp h
  obtain ⟨img, -, h⟩ := Option.bind_eq_some.mp h
  obtain ⟨er, -, h⟩ := Option.bind_eq_some.mp h
  obtain ⟨ar, -, h⟩ := Option.bind_eq_some.mp h
  obtain ⟨mr, -, h⟩ := Option.bind_eq_some.mp h
  obtain ⟨inm, -, h⟩ := Option.bind_eq_some.mp h
  obtain ⟨dp, -, h⟩ := Option.bind_eq_some.mp h
  obtain ⟨skn, -, h⟩ := Option.bind_eq_some.mp h
  obtain ⟨sknn, -, h⟩ := Option.bind_eq_some.mp h
  obtain ⟨nr, -, h⟩ := Option.bind_eq_some.mp h
  cases h
  exact normalizeTagType_cases _

/-- C10 witness: the theorem applied to a concrete Deployment. -/
theorem tag_type_normalized_witness :
    (mkEntryDisabled (mkAnns "invalid" "false")).config.tag_type = "short"
    ∨ (mkEntryDisabled (mkAnns "invalid" "false")).config.tag_type = "long" :=
  tag_type_normalized dInvalidEnabled (mkEntryDisabled (mkAnns "invalid" "false")) rfl
